import Mathlib

/-!
Shallow embedding of the outfit-recommendation scorer of the wardrobe
repository (`src/services/AIService.ts`).  Clothing items are records of
strings, scores are exact rationals (the source's JS numbers are all
decimal literals with one fractional digit, representable exactly), and
the unseeded `Math.random()` source is modelled as an explicit stream of
rationals consumed left to right, threaded through the generator exactly
where the source calls `Math.random()` (respecting `&&` short-circuit).
-/

/-- `ClothingItem` from `src/screens/ClosetScreen.tsx`:
`{ uri: string; category: string; color: string }`. -/
structure ClothingItem where
  uri : String
  category : String
  color : String
deriving DecidableEq, Repr

/-- `OutfitRating` from `AIService.ts` (outfitId, 1-5 stars rating, timestamp). -/
structure OutfitRating where
  outfitId : String
  rating : ℚ
  timestamp : ℤ
deriving DecidableEq, Repr

/-- The mutable fields of the `IntelligentService` class that user feedback
writes to (`this.outfitRatings`, `this.stylePreferences`).  The color
compatibility matrix is also a field, but it is written exactly once, in the
constructor, from literal rule data, and never mutated afterwards; it is
therefore embedded below as a constant function rather than a state field. -/
structure ServiceState where
  outfitRatings : List OutfitRating
  stylePreferences : List (String × ℚ)
deriving DecidableEq, Repr

/-- The record produced for each recommendation (`OutfitRecommendation`). -/
structure OutfitRecommendation where
  items : List ClothingItem
  score : ℚ
  reason : String
  style : String
deriving DecidableEq, Repr

/-- JS `String.prototype.toLowerCase()` (ASCII case mapping), modelled as the
per-character lowercase map.  Extensionally this is Lean's `String.toLower`
(both map `Char.toLower` over the characters); it is written out on the
character list so that it reduces by `rfl`/`decide` on literals. -/
def jsToLowerCase (s : String) : String :=
  String.mk (s.data.map Char.toLower)

/-- JS `x || d` on an optional number: `undefined` and `0` are falsy. -/
def jsNumOr (v : Option ℚ) (d : ℚ) : ℚ :=
  match v with
  | some x => if x = 0 then d else x
  | none => d

/-- Two-level lookup `table[k1]?.[k2]` on an association-list table. -/
def lookupRule (t : List (String × List (String × ℚ))) (k1 k2 : String) : Option ℚ :=
  (t.lookup k1).bind fun row => row.lookup k2

/-- The 11 canonical colors (`initializeColorCompatibilityMatrix`, line 68). -/
def colors : List String :=
  ["red", "blue", "green", "yellow", "purple", "orange", "pink", "brown", "black", "white", "gray"]

/-- The authored color-compatibility rule table (`compatibilityRules`). -/
def compatibilityRules : List (String × List (String × ℚ)) :=
  [("red", [("green", 0.9), ("blue", 0.7), ("yellow", 0.6), ("purple", 0.8), ("orange", 0.5),
            ("pink", 0.8), ("brown", 0.7), ("black", 0.9), ("white", 0.8), ("gray", 0.7)]),
   ("blue", [("red", 0.7), ("green", 0.6), ("yellow", 0.8), ("purple", 0.9), ("orange", 0.7),
             ("pink", 0.6), ("brown", 0.6), ("black", 0.9), ("white", 0.8), ("gray", 0.8)]),
   ("green", [("red", 0.9), ("blue", 0.6), ("yellow", 0.7), ("purple", 0.6), ("orange", 0.8),
              ("pink", 0.5), ("brown", 0.8), ("black", 0.9), ("white", 0.8), ("gray", 0.7)]),
   ("yellow", [("red", 0.6), ("blue", 0.8), ("green", 0.7), ("purple", 0.7), ("orange", 0.9),
               ("pink", 0.6), ("brown", 0.7), ("black", 0.9), ("white", 0.8), ("gray", 0.6)]),
   ("purple", [("red", 0.8), ("blue", 0.9), ("green", 0.6), ("yellow", 0.7), ("orange", 0.6),
               ("pink", 0.8), ("brown", 0.6), ("black", 0.9), ("white", 0.8), ("gray", 0.7)]),
   ("orange", [("red", 0.5), ("blue", 0.7), ("green", 0.8), ("yellow", 0.9), ("purple", 0.6),
               ("pink", 0.7), ("brown", 0.8), ("black", 0.9), ("white", 0.8), ("gray", 0.6)]),
   ("pink", [("red", 0.8), ("blue", 0.6), ("green", 0.5), ("yellow", 0.6), ("purple", 0.8),
             ("orange", 0.7), ("brown", 0.5), ("black", 0.9), ("white", 0.8), ("gray", 0.7)]),
   ("brown", [("red", 0.7), ("blue", 0.6), ("green", 0.8), ("yellow", 0.7), ("purple", 0.6),
              ("orange", 0.8), ("pink", 0.5), ("black", 0.9), ("white", 0.8), ("gray", 0.8)]),
   ("black", [("red", 0.9), ("blue", 0.9), ("green", 0.9), ("yellow", 0.9), ("purple", 0.9),
              ("orange", 0.9), ("pink", 0.9), ("brown", 0.9), ("white", 0.8), ("gray", 0.9)]),
   ("white", [("red", 0.8), ("blue", 0.8), ("green", 0.8), ("yellow", 0.8), ("purple", 0.8),
              ("orange", 0.8), ("pink", 0.8), ("brown", 0.8), ("black", 0.8), ("gray", 0.8)]),
   ("gray", [("red", 0.7), ("blue", 0.8), ("green", 0.7), ("yellow", 0.6), ("purple", 0.7),
             ("orange", 0.6), ("pink", 0.7), ("brown", 0.8), ("black", 0.9), ("white", 0.8)])]

/-- One entry of the matrix built by `initializeColorCompatibilityMatrix`:
entries exist exactly for pairs of canonical colors; identical colors map to
`1.0`; otherwise the authored rule if its value is truthy, else `0.5`. -/
def colorCompatibilityMatrix (c1 c2 : String) : Option ℚ :=
  if c1 ∈ colors ∧ c2 ∈ colors then
    some (if c1 = c2 then 1 else jsNumOr (lookupRule compatibilityRules c1 c2) 0.5)
  else none

/-- `colorMapping` inside `extractColorFromItem`. -/
def colorMapping : List (String × String) :=
  [("red", "red"), ("blue", "blue"), ("green", "green"), ("yellow", "yellow"),
   ("purple", "purple"), ("orange", "orange"), ("pink", "pink"), ("brown", "brown"),
   ("black", "black"), ("white", "white"), ("gray", "gray"), ("grey", "gray"),
   ("navy", "blue"), ("dark blue", "blue"), ("light blue", "blue"),
   ("dark green", "green"), ("light green", "green"),
   ("dark red", "red"), ("light red", "red"),
   ("beige", "brown"), ("tan", "brown"), ("cream", "white")]

/-- `extractColorFromItem`: lowercase the item color, look it up in the
synonym map, default to `"gray"` (all mapped values are non-empty strings,
so JS `|| 'gray'` is exactly the `undefined` fallback). -/
def extractColorFromItem (item : ClothingItem) : String :=
  (colorMapping.lookup (jsToLowerCase item.color)).getD "gray"

/-- `calculateColorCompatibility`: `matrix[color1]?.[color2] || 0.5`. -/
def calculateColorCompatibility (item1 item2 : ClothingItem) : ℚ :=
  jsNumOr (colorCompatibilityMatrix (extractColorFromItem item1) (extractColorFromItem item2)) 0.5

/-- The authored style-compatibility rule table (`styleRules`). -/
def styleRules : List (String × List (String × ℚ)) :=
  [("t-shirt", [("jeans", 0.9), ("shorts", 0.8), ("sweatpants", 0.7), ("shirt", 0.6),
                ("dress", 0.3), ("skirt", 0.4)]),
   ("shirt", [("jeans", 0.9), ("shorts", 0.6), ("sweatpants", 0.5), ("t-shirt", 0.6),
              ("dress", 0.4), ("skirt", 0.8)]),
   ("jeans", [("t-shirt", 0.9), ("shirt", 0.9), ("shorts", 0.6), ("sweatpants", 0.5),
              ("dress", 0.3), ("skirt", 0.4)]),
   ("dress", [("t-shirt", 0.3), ("shirt", 0.4), ("jeans", 0.3), ("shorts", 0.2),
              ("sweatpants", 0.2), ("skirt", 0.6)]),
   ("skirt", [("t-shirt", 0.4), ("shirt", 0.8), ("jeans", 0.4), ("shorts", 0.3),
              ("sweatpants", 0.3), ("dress", 0.6)])]

/-- `calculateStyleCompatibility`: `styleRules[cat1]?.[cat2] || 0.5` on
lowercased categories. -/
def calculateStyleCompatibility (item1 item2 : ClothingItem) : ℚ :=
  jsNumOr (lookupRule styleRules (jsToLowerCase item1.category) (jsToLowerCase item2.category)) 0.5

/-- The per-pair score accumulated inside `calculateOutfitScore`:
`(colorScore + styleScore) / 2`. -/
def pairScore (a b : ClothingItem) : ℚ :=
  (calculateColorCompatibility a b + calculateStyleCompatibility a b) / 2

/-- The list of per-pair scores produced by the double loop
`for i; for j = i+1 ...` of `calculateOutfitScore`, in loop order. -/
def pairScores : List ClothingItem → List ℚ
  | [] => []
  | x :: xs => xs.map (pairScore x) ++ pairScores xs

/-- `calculateOutfitScore`: 0 for fewer than 2 items, otherwise the sum of
the pairwise scores divided by the number of comparisons. -/
def calculateOutfitScore (items : List ClothingItem) : ℚ :=
  if items.length < 2 then 0
  else
    let total := (pairScores items).sum
    let comparisons := (pairScores items).length
    if 0 < comparisons then total / comparisons else 0

/-- `classifyOutfitStyle`: first-match rules over lowercased categories. -/
def classifyOutfitStyle (items : List ClothingItem) : String :=
  let categories := items.map (fun item => jsToLowerCase item.category)
  if categories.contains "dress" then "Elegant"
  else if categories.contains "shirt" && categories.contains "jeans" then "Smart Casual"
  else if categories.contains "t-shirt" && categories.contains "jeans" then "Casual"
  else if categories.contains "sweatpants" || categories.contains "shorts" then "Athletic"
  else "Casual"

/-- The five templated sentences of `generateRecommendationReason`. -/
def reasonTemplates (style : String) : List String :=
  let s := jsToLowerCase style
  ["Great " ++ s ++ " combination with excellent color harmony",
   "Perfect " ++ s ++ " look with complementary colors",
   "Stylish " ++ s ++ " outfit with balanced proportions",
   "Classic " ++ s ++ " pairing that works for many occasions",
   "Trendy " ++ s ++ " combination with modern appeal"]

/-- `generateRecommendationReason`: index `min (floor (score*5)) 4`. -/
def generateRecommendationReason (_items : List ClothingItem) (score : ℚ) (style : String) :
    String :=
  let reasons := reasonTemplates style
  let index := (Int.floor (score * reasons.length)).toNat
  (reasons.get? (min index (reasons.length - 1))).getD ""

/-- `filterByOccasion`: the occasion → allowed-category table. -/
def occasionMap (occasion : String) : List String :=
  if occasion = "Casual" then
    ["T-shirt", "Shirt", "Jeans", "Sweatpants", "Shorts", "Hoodie", "Shoes"]
  else if occasion = "Formal" then ["Shirt", "Dress", "Skirt", "Shoes"]
  else if occasion = "Athletic" then ["T-shirt", "Sweatpants", "Shorts", "Shoes"]
  else if occasion = "Business" then ["Shirt", "Dress", "Skirt", "Shoes"]
  else []

/-- `filterByOccasion`: keep items whose category the occasion allows. -/
def filterByOccasion (items : List ClothingItem) (occasion : String) : List ClothingItem :=
  items.filter (fun item => (occasionMap occasion).contains item.category)

/-- The weather → allowed-category table inside `generateOutfitRecommendations`. -/
def weatherMap (weather : String) : List String :=
  if weather = "Hot" then ["T-shirt", "Shorts", "Skirt", "Dress", "Hat", "Shoes"]
  else if weather = "Mild" then ["T-shirt", "Shirt", "Jeans", "Shorts", "Skirt", "Dress", "Shoes"]
  else if weather = "Cold" then ["Jacket", "Sweatpants", "Jeans", "Shirt", "Hat", "Shoes"]
  else if weather = "Rainy" then ["Jacket", "Jeans", "Sweatpants", "Shirt", "Hat", "Shoes"]
  else []

/-- The outfit template of `generateOutfitRecommendations` (lines 231-236):
top layers, bottom layers, footwear, accessories. -/
def outfitTemplate : List (List String) :=
  [["T-shirt", "Shirt", "Dress", "Hoodie", "Jacket"],
   ["Jeans", "Sweatpants", "Shorts", "Skirt"],
   ["Shoes"],
   ["Hat"]]

/-- The unseeded `Math.random()` source, modelled as a stream of rationals;
the `k`-th call to `Math.random()` in a run returns `rng k`. -/
def Rng : Type := ℕ → ℚ

/-- A random stream is valid when every draw lies in `[0, 1)`, as
`Math.random()` guarantees. -/
def ValidRng (rng : Rng) : Prop := ∀ k, 0 ≤ rng k ∧ rng k < 1

/-- `Math.floor(r * n)` as the array index for a draw `r` over `n` items. -/
def randIndex (r : ℚ) (n : ℕ) : ℕ :=
  (Int.floor (r * n)).toNat

/-- Placeholder for the JS `undefined` produced by an out-of-range array
read; never produced for draws in `[0, 1)`. -/
def undefinedItem : ClothingItem := ⟨"", "", ""⟩

/-- `arr[Math.floor(Math.random() * arr.length)]` for draw `r`. -/
def pickRandom (l : List ClothingItem) (r : ℚ) : ClothingItem :=
  l.getD (randIndex r l.length) undefinedItem

/-- Intermediate generator state: collected `items`, `usedCategories`
(insertion order is irrelevant, a list stands for the JS `Set`), and the
index of the next unconsumed random draw. -/
abbrev GenState := List ClothingItem × List String × ℕ

/-- Strategy 3 of `generateSingleOutfitWithRequired`: for each required
category not yet used, pick one uniformly-random matching item if any. -/
def addRequired (pool : List ClothingItem) (rng : Rng) :
    List String → GenState → GenState
  | [], st => st
  | cat :: cats, (items, used, pos) =>
    if used.contains cat then addRequired pool rng cats (items, used, pos)
    else
      let candidates := pool.filter (fun item => item.category == cat)
      if 0 < candidates.length then
        addRequired pool rng cats
          (items ++ [pickRandom candidates (rng pos)], used ++ [cat], pos + 1)
      else addRequired pool rng cats (items, used, pos)

/-- Strategy 4 of `generateSingleOutfitWithRequired`: one accessory slot
`cands.length > 0 && Math.random() > threshold && !used.has(cat)`; the
random call is consumed exactly when the candidate list is non-empty
(JS `&&` short-circuit), and a second draw picks the item. -/
def addAccessory (pool : List ClothingItem) (cat : String) (threshold : ℚ) (rng : Rng)
    (st : GenState) : GenState :=
  let (items, used, pos) := st
  let cands := pool.filter (fun item => item.category == cat)
  if 0 < cands.length then
    if threshold < rng pos ∧ ¬ used.contains cat = true then
      (items ++ [pickRandom cands (rng (pos + 1))], used ++ [cat], pos + 2)
    else (items, used, pos + 1)
  else (items, used, pos)

/-- Strategies 1-2 of `generateSingleOutfitWithRequired`: a dress as the
base if the pool has one (the JS `find` takes the first), otherwise one
random top-layer and one random bottom-layer item when present. -/
def baseOutfit (pool : List ClothingItem) (template : List (List String)) (rng : Rng)
    (pos : ℕ) : GenState :=
  match pool.find? (fun item => item.category == "Dress") with
  | some dress => ([dress], ["Dress"], pos)
  | none =>
    let tops := pool.filter (fun item => (template.getD 0 []).contains item.category)
    let st1 : GenState :=
      if 0 < tops.length then
        let top := pickRandom tops (rng pos)
        ([top], [top.category], pos + 1)
      else ([], [], pos)
    let bottoms := pool.filter (fun item => (template.getD 1 []).contains item.category)
    if 0 < bottoms.length then
      let bottom := pickRandom bottoms (rng st1.2.2)
      (st1.1 ++ [bottom], st1.2.1 ++ [bottom.category], st1.2.2 + 1)
    else st1

/-- `generateSingleOutfitWithRequired`: base, then required categories,
then the Shoes (p = 0.7), Hat (p = 0.5) and Other (p = 0.3) accessory
slots; returns the item list and the next unconsumed draw index. -/
def generateSingleOutfitWithRequired (pool : List ClothingItem) (template : List (List String))
    (requiredCategories : List String) (rng : Rng) (pos : ℕ) : List ClothingItem × ℕ :=
  let st1 := baseOutfit pool template rng pos
  let st2 := addRequired pool rng requiredCategories st1
  let st3 := addAccessory pool "Shoes" 0.3 rng st2
  let st4 := addAccessory pool "Hat" 0.5 rng st3
  let st5 := addAccessory pool "Other" 0.7 rng st4
  (st5.1, st5.2.2)

/-- `rateOutfit`: append the rating to `this.outfitRatings`. -/
def rateOutfit (s : ServiceState) (outfitId : String) (rating : ℚ) (timestamp : ℤ) :
    ServiceState :=
  { s with outfitRatings := s.outfitRatings ++ [⟨outfitId, rating, timestamp⟩] }

/-- `updateStylePreferences`: set `this.stylePreferences[category]`. -/
def updateStylePreferences (s : ServiceState) (category : String) (preference : ℚ) :
    ServiceState :=
  { s with stylePreferences :=
      (s.stylePreferences.filter (fun kv => kv.1 ≠ category)) ++ [(category, preference)] }

/-- One feedback interaction against the service state. -/
inductive FeedbackOp where
  | rate (outfitId : String) (rating : ℚ) (timestamp : ℤ)
  | stylePref (category : String) (preference : ℚ)
deriving DecidableEq, Repr

/-- Replay a sequence of `rateOutfit` / `updateStylePreferences` calls. -/
def applyFeedback : List FeedbackOp → ServiceState → ServiceState
  | [], s => s
  | FeedbackOp.rate oid r t :: ops, s => applyFeedback ops (rateOutfit s oid r t)
  | FeedbackOp.stylePref c p :: ops, s => applyFeedback ops (updateStylePreferences s c p)

/-- Strict lexicographic order on character lists by code point; the order
JS `Array.prototype.sort()` uses on the outfit-key URIs. -/
def charListLt : List Char → List Char → Bool
  | [], [] => false
  | [], _ :: _ => true
  | _ :: _, [] => false
  | a :: as, b :: bs =>
    if a.toNat < b.toNat then true
    else if b.toNat < a.toNat then false
    else charListLt as bs

/-- Non-strict string order for the key sort (`a ≤ b`). -/
def uriLe (a b : String) : Prop := charListLt a.data b.data = true ∨ a = b

instance : DecidableRel uriLe := fun a b =>
  inferInstanceAs (Decidable (charListLt a.data b.data = true ∨ a = b))

/-- The deduplication key: `items.map(i => i.uri).sort().join('|')`. -/
def outfitKey (items : List ClothingItem) : String :=
  String.intercalate "|" (List.insertionSort uriLe (items.map (fun i => i.uri)))

/-- Lines 273-283: score, classify and explain one accepted outfit. -/
def mkRecommendation (items : List ClothingItem) : OutfitRecommendation :=
  let score := calculateOutfitScore items
  let style := classifyOutfitStyle items
  let reason := generateRecommendationReason items score style
  ⟨items, score, reason, style⟩

/-- The retry loop of `generateOutfitRecommendations` (lines 257-286).
`fuel` is the remaining attempt budget `n*10 - attempts`; every iteration
consumes one unit, outfits with fewer than 2 items are discarded, and a
sorted-URI key deduplicates accepted outfits. -/
def recommendLoop (pool : List ClothingItem) (required : List String) (n : ℕ) (rng : Rng) :
    ℕ → List OutfitRecommendation → List String → ℕ → List OutfitRecommendation
  | 0, recs, _, _ => recs
  | fuel + 1, recs, seen, pos =>
    if recs.length < n then
      let gen := generateSingleOutfitWithRequired pool outfitTemplate required rng pos
      if gen.1.length < 2 then recommendLoop pool required n rng fuel recs seen gen.2
      else
        let key := outfitKey gen.1
        if seen.contains key then recommendLoop pool required n rng fuel recs seen gen.2
        else
          recommendLoop pool required n rng fuel (recs ++ [mkRecommendation gen.1])
            (seen ++ [key]) gen.2
    else recs

/-- The descending-score comparator of the final `sort`:
`(a, b) => b.score - a.score`, i.e. `a` before `b` iff `b.score ≤ a.score`
with ties keeping their relative order (JS sort is stable). -/
def byScoreDesc (a b : OutfitRecommendation) : Prop := b.score ≤ a.score

instance : DecidableRel byScoreDesc := fun a b =>
  inferInstanceAs (Decidable (b.score ≤ a.score))

instance : IsTotal OutfitRecommendation byScoreDesc :=
  ⟨fun a b => (le_total b.score a.score).elim Or.inl Or.inr⟩

instance : IsTrans OutfitRecommendation byScoreDesc :=
  ⟨fun _ _ _ hab hbc => le_trans hbc hab⟩

/-- The occasion/weather filtering steps (lines 238-254).  JS `if (x)` on an
optional string treats `undefined` and `""` as falsy. -/
def applyFilters (clothingItems : List ClothingItem) (occasion weather : Option String) :
    List ClothingItem :=
  let filtered1 :=
    match occasion with
    | some occ => if occ = "" then clothingItems else filterByOccasion clothingItems occ
    | none => clothingItems
  match weather with
  | some w =>
    if w = "" then filtered1
    else filtered1.filter (fun item => (weatherMap w).contains item.category)
  | none => filtered1

/-- `generateOutfitRecommendations`: filter the wardrobe, run the retry
loop with budget `n*10`, and stable-sort the result by score descending.
The `state` argument carries the service's mutable feedback fields, which
this method never reads. -/
def generateOutfitRecommendations (_state : ServiceState) (clothingItems : List ClothingItem)
    (numRecommendations : ℕ) (occasion weather : Option String)
    (requiredCategories : List String) (rng : Rng) : List OutfitRecommendation :=
  let filteredItems := applyFilters clothingItems occasion weather
  let recs := recommendLoop filteredItems requiredCategories numRecommendations rng
    (numRecommendations * 10) [] [] 0
  List.insertionSort byScoreDesc recs

/-- Specification-side definition (`scoreOutfit`, spec §4.4): the list of
all unordered item pairs `(i, j)`, `i < j`, in generation order. -/
def specUnorderedPairs : List ClothingItem → List (ClothingItem × ClothingItem)
  | [] => []
  | x :: xs => xs.map (fun y => (x, y)) ++ specUnorderedPairs xs

/-- Specification-side definition: the per-pair mean
`(colorCompatibility + styleCompatibility) / 2` of spec §4.4. -/
def specPairMean (p : ClothingItem × ClothingItem) : ℚ :=
  (calculateColorCompatibility p.1 p.2 + calculateStyleCompatibility p.1 p.2) / 2

/-- Fixture: the red T-shirt of the spec §8 worked example. -/
def itemA : ClothingItem := ⟨"a", "T-shirt", "red"⟩

/-- Fixture: the blue Jeans of the spec §8 worked example. -/
def itemB : ClothingItem := ⟨"b", "Jeans", "blue"⟩

/-- Fixture: a dress (first in pool order where it appears). -/
def dressItem1 : ClothingItem := ⟨"d1", "Dress", "red"⟩

/-- Fixture: a second, distinct dress. -/
def dressItem2 : ClothingItem := ⟨"d2", "Dress", "blue"⟩

/-- Fixture: a skirt. -/
def skirtItem : ClothingItem := ⟨"s", "Skirt", "blue"⟩

/-- Fixture: shorts (a category with no row of its own in `styleRules`). -/
def shortsItem : ClothingItem := ⟨"p", "Shorts", "blue"⟩

/-- Fixture: an empty service state (no recorded feedback). -/
def state0 : ServiceState := ⟨[], []⟩

/-- Fixture: the all-zero random stream (every draw is `0`). -/
def rng0 : Rng := fun _ => 0

theorem jsToLowerCase_Tshirt : jsToLowerCase "T-shirt" = "t-shirt" := rfl

theorem jsToLowerCase_Shirt : jsToLowerCase "Shirt" = "shirt" := rfl

theorem jsToLowerCase_Jeans : jsToLowerCase "Jeans" = "jeans" := rfl

theorem jsToLowerCase_Dress : jsToLowerCase "Dress" = "dress" := rfl

theorem jsToLowerCase_Skirt : jsToLowerCase "Skirt" = "skirt" := rfl

theorem jsToLowerCase_Shorts : jsToLowerCase "Shorts" = "shorts" := rfl

theorem jsToLowerCase_red : jsToLowerCase "red" = "red" := rfl

theorem jsToLowerCase_blue : jsToLowerCase "blue" = "blue" := rfl

theorem jsToLowerCase_Casual : jsToLowerCase "Casual" = "casual" := rfl

example : calculateStyleCompatibility ⟨"a", "T-shirt", "red"⟩ ⟨"b", "Jeans", "blue"⟩ = 0.9 := by
  rw [show calculateStyleCompatibility ⟨"a", "T-shirt", "red"⟩ ⟨"b", "Jeans", "blue"⟩ =
    jsNumOr (some 0.9) 0.5 from rfl]
  norm_num [jsNumOr]

example : calculateColorCompatibility ⟨"a", "T-shirt", "red"⟩ ⟨"b", "Jeans", "blue"⟩ = 0.7 := by
  rw [show calculateColorCompatibility ⟨"a", "T-shirt", "red"⟩ ⟨"b", "Jeans", "blue"⟩ =
    jsNumOr (some (jsNumOr (some 0.7) 0.5)) 0.5 from rfl]
  norm_num [jsNumOr]

example : calculateOutfitScore [⟨"a", "T-shirt", "red"⟩, ⟨"b", "Jeans", "blue"⟩] = 0.8 := by
  rw [show calculateOutfitScore [⟨"a", "T-shirt", "red"⟩, ⟨"b", "Jeans", "blue"⟩] =
    (if (0:ℕ) < 1 then
      ((jsNumOr (some (jsNumOr (some 0.7) 0.5)) 0.5 + jsNumOr (some 0.9) 0.5) / 2 + 0) / (1:ℕ)
    else 0) from rfl]
  norm_num [jsNumOr]

example : classifyOutfitStyle [⟨"a", "T-shirt", "red"⟩, ⟨"b", "Jeans", "blue"⟩] = "Casual" :=
  rfl

/-! ### Scoring lemmas (claim C2) -/

theorem pairScores_eq_map_specPairMean (l : List ClothingItem) :
    pairScores l = (specUnorderedPairs l).map specPairMean := by
  induction l with
  | nil => rfl
  | cons x xs ih =>
    simp [pairScores, specUnorderedPairs, specPairMean, pairScore, ih, List.map_map,
      Function.comp]

theorem pairScores_length (l : List ClothingItem) :
    (pairScores l).length = l.length.choose 2 := by
  induction l with
  | nil => rfl
  | cons x xs ih =>
    simp only [pairScores, List.length_append, List.length_map, ih, List.length_cons,
      Nat.choose_succ_succ, Nat.choose_one_right]

/-- C2: `calculateOutfitScore` returns 0 on the empty list and on singletons,
and on lists of 2 or more items returns the arithmetic mean, over all
`n*(n-1)/2` unordered pairs in generation order, of
`(colorCompatibility + styleCompatibility) / 2`. -/
theorem calculateOutfitScore_spec :
    calculateOutfitScore [] = 0 ∧ (∀ x : ClothingItem, calculateOutfitScore [x] = 0) ∧
    ∀ items : List ClothingItem, 2 ≤ items.length →
      calculateOutfitScore items =
        ((specUnorderedPairs items).map specPairMean).sum /
          ((items.length * (items.length - 1) / 2 : ℕ) : ℚ) := by
  refine ⟨rfl, fun x => rfl, fun items h2 => ?_⟩
  have hlen : (pairScores items).length = items.length * (items.length - 1) / 2 := by
    rw [pairScores_length, Nat.choose_two_right]
  have hpos : 0 < (pairScores items).length := by
    rw [pairScores_length]
    exact Nat.choose_pos h2
  simp only [calculateOutfitScore]
  rw [if_neg (by omega), if_pos hpos, hlen, pairScores_eq_map_specPairMean]

/-- Witness for C2 at the concrete two-item wardrobe of the spec example. -/
theorem calculateOutfitScore_spec_witness :
    2 ≤ ([itemA, itemB] : List ClothingItem).length ∧
    calculateOutfitScore [itemA, itemB] =
      ((specUnorderedPairs [itemA, itemB]).map specPairMean).sum /
        (([itemA, itemB].length * ([itemA, itemB].length - 1) / 2 : ℕ) : ℚ) :=
  ⟨by decide, calculateOutfitScore_spec.2.2 [itemA, itemB] (by decide)⟩

/-! ### Style-table direction sensitivity (claim C5) -/

/-- C5 counterexample: contrary to the claim, the authored style table gives
the *same* value 0.6 in both directions for the dress/skirt pair:
`styleCompatibility(dress, skirt) = styleCompatibility(skirt, dress)`. -/
theorem styleCompatibility_dressSkirt_symmetric :
    calculateStyleCompatibility dressItem1 skirtItem =
      calculateStyleCompatibility skirtItem dressItem1 :=
  rfl

/-- C5 (amended): the authored style table is direction-sensitive — for the
t-shirt/shorts pair the two directions give 0.8 and the 0.5 default — but the
dress/skirt pair is *not* an instance: both directions give 0.6. -/
theorem styleCompatibility_direction_sensitive :
    calculateStyleCompatibility itemA shortsItem = 0.8 ∧
    calculateStyleCompatibility shortsItem itemA = 0.5 ∧
    calculateStyleCompatibility dressItem1 skirtItem = 0.6 ∧
    calculateStyleCompatibility skirtItem dressItem1 = 0.6 := by
  refine ⟨?_, rfl, ?_, ?_⟩
  · rw [show calculateStyleCompatibility itemA shortsItem = jsNumOr (some 0.8) 0.5 from rfl]
    norm_num [jsNumOr]
  · rw [show calculateStyleCompatibility dressItem1 skirtItem = jsNumOr (some 0.6) 0.5 from rfl]
    norm_num [jsNumOr]
  · rw [show calculateStyleCompatibility skirtItem dressItem1 = jsNumOr (some 0.6) 0.5 from rfl]
    norm_num [jsNumOr]

/-! ### Color matrix symmetry and unit diagonal (claim C9) -/

/-- C9: over the 11 canonical colors the constructed compatibility matrix is
symmetric and has unit diagonal. -/
theorem colorCompatibilityMatrix_symm_diag :
    ∀ a ∈ colors, ∀ b ∈ colors,
      colorCompatibilityMatrix a b = colorCompatibilityMatrix b a ∧
      colorCompatibilityMatrix a a = some 1 := by
  intro a ha b hb
  fin_cases ha <;> fin_cases hb <;> exact ⟨rfl, rfl⟩

/-- Witness for C9 at the concrete pair (red, blue). -/
theorem colorCompatibilityMatrix_symm_diag_witness :
    "red" ∈ colors ∧ "blue" ∈ colors ∧
    (colorCompatibilityMatrix "red" "blue" = colorCompatibilityMatrix "blue" "red" ∧
      colorCompatibilityMatrix "red" "red" = some 1) :=
  ⟨by decide, by decide,
    colorCompatibilityMatrix_symm_diag "red" (by decide) "blue" (by decide)⟩

/-! ### Feedback never affects scoring (claim C7) -/

/-- C7: the recommendation pipeline reads none of the feedback state: two
runs with identical wardrobe, filters, count and random draws but arbitrary
different stored ratings/preferences — in particular states reached by any
sequence of `rateOutfit` / `updateStylePreferences` calls — give identical
output. -/
theorem generateOutfitRecommendations_feedback_independent :
    (∀ (s1 s2 : ServiceState) (pool : List ClothingItem) (n : ℕ)
      (occ w : Option String) (req : List String) (rng : Rng),
      generateOutfitRecommendations s1 pool n occ w req rng =
        generateOutfitRecommendations s2 pool n occ w req rng) ∧
    (∀ (s : ServiceState) (ops : List FeedbackOp) (pool : List ClothingItem) (n : ℕ)
      (occ w : Option String) (req : List String) (rng : Rng),
      generateOutfitRecommendations (applyFeedback ops s) pool n occ w req rng =
        generateOutfitRecommendations s pool n occ w req rng) :=
  ⟨fun _ _ _ _ _ _ _ _ => rfl, fun _ _ _ _ _ _ _ _ => rfl⟩

/-! ### Generator structure lemmas -/

theorem addAccessory_append (pool : List ClothingItem) (cat : String) (th : ℚ) (rng : Rng)
    (st : GenState) : ∃ suf, (addAccessory pool cat th rng st).1 = st.1 ++ suf := by
  obtain ⟨items, used, pos⟩ := st
  simp only [addAccessory]
  split
  · split
    · exact ⟨_, rfl⟩
    · exact ⟨[], (List.append_nil items).symm⟩
  · exact ⟨[], (List.append_nil items).symm⟩

theorem addRequired_append (pool : List ClothingItem) (rng : Rng) :
    ∀ (cats : List String) (st : GenState),
      ∃ suf, (addRequired pool rng cats st).1 = st.1 ++ suf := by
  intro cats
  induction cats with
  | nil => exact fun st => ⟨[], (List.append_nil st.1).symm⟩
  | cons c cs ih =>
    intro st
    obtain ⟨items, used, pos⟩ := st
    rw [addRequired]
    split
    · exact ih (items, used, pos)
    · show ∃ suf,
        (if 0 < (List.filter (fun item => item.category == c) pool).length then
          addRequired pool rng cs
            (items ++ [pickRandom (List.filter (fun item => item.category == c) pool) (rng pos)],
              used ++ [c], pos + 1)
        else addRequired pool rng cs (items, used, pos)).1 = items ++ suf
      split
      · obtain ⟨suf, hsuf⟩ :=
          ih (items ++ [pickRandom (List.filter (fun item => item.category == c) pool) (rng pos)],
            used ++ [c], pos + 1)
        exact ⟨[pickRandom (List.filter (fun item => item.category == c) pool) (rng pos)] ++ suf,
          by rw [hsuf, List.append_assoc]⟩
      · exact ih (items, used, pos)

theorem baseOutfit_dress (pool : List ClothingItem) (template : List (List String)) (rng : Rng)
    (pos : ℕ) (d : ClothingItem)
    (h : pool.find? (fun item => item.category == "Dress") = some d) :
    baseOutfit pool template rng pos = ([d], ["Dress"], pos) := by
  rw [baseOutfit, h]

/-! ### Dress selection is deterministic, not uniform (claim C4) -/

/-- C4 counterexample: in a pool of two dresses the second dress is in the
Dress pool but is the selected base under *no* random stream: the code
takes the first dress with `find`, consuming no randomness at all. -/
theorem dressBase_not_uniform :
    ¬ (∀ d ∈ ([dressItem1, dressItem2].filter (fun i => i.category == "Dress")),
        ∃ (rng : Rng) (pos : ℕ),
          (generateSingleOutfitWithRequired [dressItem1, dressItem2] outfitTemplate []
            rng pos).1.head? = some d) := by
  intro h
  obtain ⟨rng, pos, heq⟩ := h dressItem2 (by decide)
  rw [show (generateSingleOutfitWithRequired [dressItem1, dressItem2] outfitTemplate []
      rng pos).1 = [dressItem1] from rfl] at heq
  exact absurd (Option.some.inj heq) (by decide)

/-- C4 (amended): whenever the pool contains a Dress item, the base is
deterministically the *first* Dress item in pool order (`find`), placed at
the head of the generated outfit, for every random stream and position. -/
theorem generateSingle_base_is_first_dress (pool : List ClothingItem)
    (template : List (List String)) (required : List String) (rng : Rng) (pos : ℕ)
    (d : ClothingItem) (h : pool.find? (fun item => item.category == "Dress") = some d) :
    (generateSingleOutfitWithRequired pool template required rng pos).1.head? = some d := by
  simp only [generateSingleOutfitWithRequired, baseOutfit_dress pool template rng pos d h]
  obtain ⟨s2, h2⟩ := addRequired_append pool rng required ([d], ["Dress"], pos)
  obtain ⟨s3, h3⟩ := addAccessory_append pool "Shoes" 0.3 rng
    (addRequired pool rng required ([d], ["Dress"], pos))
  obtain ⟨s4, h4⟩ := addAccessory_append pool "Hat" 0.5 rng
    (addAccessory pool "Shoes" 0.3 rng (addRequired pool rng required ([d], ["Dress"], pos)))
  obtain ⟨s5, h5⟩ := addAccessory_append pool "Other" 0.7 rng
    (addAccessory pool "Hat" 0.5 rng
      (addAccessory pool "Shoes" 0.3 rng (addRequired pool rng required ([d], ["Dress"], pos))))
  rw [h5, h4, h3, h2]
  rfl

/-- Witness for C4 (amended) at the two-dress pool: the head is the first
dress under the all-zero stream. -/
theorem generateSingle_base_is_first_dress_witness :
    ([dressItem1, dressItem2].find? (fun item => item.category == "Dress") = some dressItem1) ∧
    (generateSingleOutfitWithRequired [dressItem1, dressItem2] outfitTemplate []
      rng0 0).1.head? = some dressItem1 :=
  ⟨rfl, generateSingle_base_is_first_dress [dressItem1, dressItem2] outfitTemplate [] rng0 0
    dressItem1 rfl⟩

/-! ### Dress-only wardrobe (claim C1) -/

theorem generateSingle_dressOnly (rng : Rng) (pos : ℕ) :
    generateSingleOutfitWithRequired [dressItem1] outfitTemplate [] rng pos =
      ([dressItem1], pos) :=
  rfl

theorem recommendLoop_dressOnly (n : ℕ) (rng : Rng) :
    ∀ (fuel : ℕ) (seen : List String) (pos : ℕ),
      recommendLoop [dressItem1] [] n rng fuel [] seen pos = [] := by
  intro fuel
  induction fuel with
  | zero => intro seen pos; rfl
  | succ fuel ih =>
    intro seen pos
    rw [recommendLoop]
    split
    · simp only [generateSingle_dressOnly]
      exact ih seen pos
    · rfl

/-- C1: the code discards every candidate with fewer than 2 items, so for a
wardrobe holding exactly one Dress item and nothing else the pipeline
returns the empty list for every count and every random stream — the
dress-only outfit the spec promises (style "Elegant") is never produced.
This contradicts the code's own comment ("Ensure we have at least a top and
bottom (or a dress) for a complete outfit") and spec §7's "dress-only outfit
… valid, non-error result". -/
theorem dressOnly_recommendations_empty (s : ServiceState) (n : ℕ) (rng : Rng) :
    generateOutfitRecommendations s [dressItem1] n none none [] rng = [] := by
  show List.insertionSort byScoreDesc
    (recommendLoop (applyFilters [dressItem1] none none) [] n rng (n * 10) [] [] 0) = []
  rw [show applyFilters [dressItem1] none none = [dressItem1] from rfl,
    recommendLoop_dressOnly n rng (n * 10) [] 0]
  rfl

/-! ### Retry-loop lemmas -/

theorem recommendLoop_length_le (pool : List ClothingItem) (req : List String) (n : ℕ)
    (rng : Rng) : ∀ (fuel : ℕ) (recs : List OutfitRecommendation) (seen : List String)
      (pos : ℕ), recs.length ≤ n →
      (recommendLoop pool req n rng fuel recs seen pos).length ≤ n := by
  intro fuel
  induction fuel with
  | zero => intro recs seen pos h; exact h
  | succ fuel ih =>
    intro recs seen pos h
    simp only [recommendLoop]
    split
    next hlt =>
      split
      next => exact ih _ _ _ h
      next =>
        split
        next => exact ih _ _ _ h
        next =>
          apply ih
          simp only [List.length_append, List.length_cons, List.length_nil]
          omega
    next => exact h

theorem recommendLoop_mem (pool : List ClothingItem) (req : List String) (n : ℕ) (rng : Rng) :
    ∀ (fuel : ℕ) (recs : List OutfitRecommendation) (seen : List String) (pos : ℕ)
      (r : OutfitRecommendation), r ∈ recommendLoop pool req n rng fuel recs seen pos →
      r ∈ recs ∨ ∃ pos1,
        2 ≤ (generateSingleOutfitWithRequired pool outfitTemplate req rng pos1).1.length ∧
        r = mkRecommendation (generateSingleOutfitWithRequired pool outfitTemplate req rng pos1).1 := by
  intro fuel
  induction fuel with
  | zero => intro recs seen pos r hr; exact Or.inl hr
  | succ fuel ih =>
    intro recs seen pos r hr
    simp only [recommendLoop] at hr
    split at hr
    next =>
      split at hr
      next => exact ih _ _ _ _ hr
      next hlen =>
        split at hr
        next => exact ih _ _ _ _ hr
        next =>
          rcases ih _ _ _ _ hr with hin | hex
          · rcases List.mem_append.1 hin with h1 | h2
            · exact Or.inl h1
            · right
              refine ⟨pos, by omega, ?_⟩
              simpa using h2
          · exact Or.inr hex
    next => exact Or.inl hr

/-! ### Every returned outfit has at least two items (claim C10) -/

/-- C10: candidates with fewer than 2 items are discarded by the retry
loop, so every returned recommendation holds at least 2 items, for every
wardrobe, filter choice, count and random stream. -/
theorem recommendations_have_two_items (s : ServiceState) (pool : List ClothingItem) (n : ℕ)
    (occ w : Option String) (req : List String) (rng : Rng) :
    ∀ r ∈ generateOutfitRecommendations s pool n occ w req rng, 2 ≤ r.items.length := by
  intro r hr
  have hr2 : r ∈ recommendLoop (applyFilters pool occ w) req n rng (n * 10) [] [] 0 :=
    (List.mem_insertionSort byScoreDesc).1 hr
  rcases recommendLoop_mem (applyFilters pool occ w) req n rng (n * 10) [] [] 0 r hr2 with
    h | ⟨pos1, h2, hrEq⟩
  · exact absurd h (List.not_mem_nil r)
  · rw [hrEq]
    exact h2

/-! ### The spec §8 two-item worked example (claim C8) -/

theorem randIndex_one_eq_zero (r : ℚ) (h0 : 0 ≤ r) (h1 : r < 1) : randIndex r 1 = 0 := by
  unfold randIndex
  rw [show ((1 : ℕ) : ℚ) = 1 from rfl, mul_one,
    Int.floor_eq_zero_iff.2 (Set.mem_Ico.2 ⟨h0, h1⟩)]
  rfl

theorem pickRandom_singleton (x : ClothingItem) (r : ℚ) (h0 : 0 ≤ r) (h1 : r < 1) :
    pickRandom [x] r = x := by
  unfold pickRandom
  rw [show ([x] : List ClothingItem).length = 1 from rfl, randIndex_one_eq_zero r h0 h1]
  rfl

theorem addAccessory_nocands (pool : List ClothingItem) (cat : String) (th : ℚ) (rng : Rng)
    (st : GenState) (h : pool.filter (fun item => item.category == cat) = []) :
    addAccessory pool cat th rng st = st := by
  obtain ⟨items, used, pos⟩ := st
  simp [addAccessory, h]

theorem baseOutfit_c8 (rng : Rng) (hv : ValidRng rng) (pos : ℕ) :
    baseOutfit [itemA, itemB] outfitTemplate rng pos =
      ([itemA, itemB], ["T-shirt", "Jeans"], pos + 2) := by
  obtain ⟨h0, h1⟩ := hv pos
  obtain ⟨h0b, h1b⟩ := hv (pos + 1)
  simp only [baseOutfit,
    show ([itemA, itemB].find? (fun item => item.category == "Dress")) = none from rfl,
    show (List.filter (fun item => ((outfitTemplate.getD 0 []).contains item.category))
      [itemA, itemB]) = [itemA] from rfl,
    show (List.filter (fun item => ((outfitTemplate.getD 1 []).contains item.category))
      [itemA, itemB]) = [itemB] from rfl,
    List.length_cons, List.length_nil]
  simp only [show ((0 : ℕ) < 0 + 1) = True by simp, if_true, ite_true]
  rw [pickRandom_singleton itemA (rng pos) h0 h1, pickRandom_singleton itemB (rng (pos + 1)) h0b h1b]
  rfl

theorem generateSingle_c8 (rng : Rng) (hv : ValidRng rng) (pos : ℕ) :
    generateSingleOutfitWithRequired [itemA, itemB] outfitTemplate [] rng pos =
      ([itemA, itemB], pos + 2) := by
  simp only [generateSingleOutfitWithRequired, baseOutfit_c8 rng hv pos]
  rw [show addRequired [itemA, itemB] rng [] ([itemA, itemB], ["T-shirt", "Jeans"], pos + 2) =
      ([itemA, itemB], ["T-shirt", "Jeans"], pos + 2) from rfl,
    addAccessory_nocands [itemA, itemB] "Shoes" 0.3 rng _ rfl,
    addAccessory_nocands [itemA, itemB] "Hat" 0.5 rng _ rfl,
    addAccessory_nocands [itemA, itemB] "Other" 0.7 rng _ rfl]

theorem recommendLoop_c8_steady (rng : Rng) (hv : ValidRng rng) :
    ∀ (fuel pos : ℕ),
      recommendLoop [itemA, itemB] [] 3 rng fuel [mkRecommendation [itemA, itemB]]
        [outfitKey [itemA, itemB]] pos = [mkRecommendation [itemA, itemB]] := by
  intro fuel
  induction fuel with
  | zero => intro pos; rfl
  | succ fuel ih =>
    intro pos
    simp only [recommendLoop, generateSingle_c8 rng hv, List.length_cons, List.length_nil,
      List.contains_cons, beq_self_eq_true, Bool.true_or, if_true]
    simp only [show ((1 : ℕ) < 3) = True by simp, show ¬ ((2 : ℕ) < 2) by omega, if_true,
      if_false, ite_true, ite_false]
    exact ih (pos + 2)

theorem generateOutfitRecommendations_c8 (s : ServiceState) (rng : Rng) (hv : ValidRng rng) :
    generateOutfitRecommendations s [itemA, itemB] 3 none none [] rng =
      [mkRecommendation [itemA, itemB]] := by
  have hstep : ∀ (fuel pos : ℕ),
      recommendLoop [itemA, itemB] [] 3 rng (fuel + 1) [] [] pos =
        recommendLoop [itemA, itemB] [] 3 rng fuel [mkRecommendation [itemA, itemB]]
          [outfitKey [itemA, itemB]] (pos + 2) := by
    intro fuel pos
    simp only [recommendLoop, generateSingle_c8 rng hv, List.length_cons, List.length_nil,
      List.contains_nil, List.nil_append]
    simp only [show ((0 : ℕ) < 3) = True by simp, show ¬ ((2 : ℕ) < 2) by omega, if_true,
      if_false, ite_true, ite_false, Bool.false_eq_true]
  show List.insertionSort byScoreDesc
    (recommendLoop (applyFilters [itemA, itemB] none none) [] 3 rng (3 * 10) [] [] 0) = _
  rw [show applyFilters [itemA, itemB] none none = [itemA, itemB] from rfl,
    show (3 * 10 : ℕ) = 29 + 1 from rfl, hstep 29 0, recommendLoop_c8_steady rng hv 29 2]
  rfl

theorem calculateOutfitScore_c8 : calculateOutfitScore [itemA, itemB] = 0.8 := by
  rw [show calculateOutfitScore [itemA, itemB] =
    (if (0 : ℕ) < 1 then
      ((jsNumOr (some (jsNumOr (some 0.7) 0.5)) 0.5 + jsNumOr (some 0.9) 0.5) / 2 + 0) / (1 : ℕ)
    else 0) from rfl]
  norm_num [jsNumOr]

/-- C8: for the wardrobe `[red T-shirt "a", blue Jeans "b"]` and requested
count 3, the pipeline returns at most one recommendation; every returned
entry is exactly that pair with score `(0.7 + 0.9)/2 = 0.8` and style
`"Casual"` — for every valid random stream. -/
theorem recommend_tshirt_jeans_example (s : ServiceState) (rng : Rng) (hv : ValidRng rng) :
    (generateOutfitRecommendations s [itemA, itemB] 3 none none [] rng).length ≤ 1 ∧
    ∀ r ∈ generateOutfitRecommendations s [itemA, itemB] 3 none none [] rng,
      r.items = [itemA, itemB] ∧ r.score = 0.8 ∧ r.style = "Casual" := by
  rw [generateOutfitRecommendations_c8 s rng hv]
  refine ⟨by simp, ?_⟩
  intro r hr
  rw [List.mem_singleton] at hr
  subst hr
  exact ⟨rfl, calculateOutfitScore_c8, rfl⟩

theorem validRng_rng0 : ValidRng rng0 := by
  intro k
  refine ⟨?_, ?_⟩
  · show (0 : ℚ) ≤ 0
    decide
  · show (0 : ℚ) < 1
    decide

/-- Witness for C8 under the all-zero random stream. -/
theorem recommend_tshirt_jeans_example_witness :
    ValidRng rng0 ∧
    ((generateOutfitRecommendations state0 [itemA, itemB] 3 none none [] rng0).length ≤ 1 ∧
     ∀ r ∈ generateOutfitRecommendations state0 [itemA, itemB] 3 none none [] rng0,
       r.items = [itemA, itemB] ∧ r.score = 0.8 ∧ r.style = "Casual") :=
  ⟨validRng_rng0, recommend_tshirt_jeans_example state0 rng0 validRng_rng0⟩

/-- Witness for C10 at a concrete run with a non-empty output. -/
theorem recommendations_have_two_items_witness :
    mkRecommendation [itemA, itemB] ∈
      generateOutfitRecommendations state0 [itemA, itemB] 3 none none [] rng0 ∧
    2 ≤ (mkRecommendation [itemA, itemB]).items.length :=
  ⟨by rw [generateOutfitRecommendations_c8 state0 rng0 validRng_rng0]
      exact List.mem_singleton.2 rfl,
   recommendations_have_two_items state0 [itemA, itemB] 3 none none [] rng0
     (mkRecommendation [itemA, itemB])
     (by rw [generateOutfitRecommendations_c8 state0 rng0 validRng_rng0]
         exact List.mem_singleton.2 rfl)⟩

/-! ### Output sorted by score, stable on ties, length at most n (claim C3) -/

theorem filter_score_orderedInsert (q : ℚ) (x : OutfitRecommendation)
    (l : List OutfitRecommendation) :
    (List.orderedInsert byScoreDesc x l).filter (fun r => decide (r.score = q)) =
      (x :: l).filter (fun r => decide (r.score = q)) := by
  induction l with
  | nil => rfl
  | cons y ys ih =>
    rw [List.orderedInsert]
    split
    next hle => rfl
    next hgt =>
      have hxy : x.score < y.score := not_le.1 hgt
      by_cases hy : y.score = q
      · have hx : ¬ x.score = q := by
          intro hx
          rw [hx, hy] at hxy
          exact lt_irrefl q hxy
        simp [List.filter_cons, ih, hy, hx]
      · by_cases hx : x.score = q
        · simp [List.filter_cons, ih, hy, hx]
        · simp [List.filter_cons, ih, hy, hx]

theorem filter_score_insertionSort (q : ℚ) (l : List OutfitRecommendation) :
    (List.insertionSort byScoreDesc l).filter (fun r => decide (r.score = q)) =
      l.filter (fun r => decide (r.score = q)) := by
  induction l with
  | nil => rfl
  | cons x xs ih =>
    rw [List.insertionSort, filter_score_orderedInsert]
    simp only [List.filter_cons, ih]

/-- C3: for every wardrobe, filters, count and random stream the output has
length at most `n`, is pairwise non-increasing in score, and is a stable
rearrangement of the generated list: for every score value `q` the
subsequence of entries with that score is exactly the generated-order
subsequence (equal-score entries keep their relative generation order). -/
theorem recommend_sorted_stable (s : ServiceState) (pool : List ClothingItem) (n : ℕ)
    (occ w : Option String) (req : List String) (rng : Rng) :
    (generateOutfitRecommendations s pool n occ w req rng).length ≤ n ∧
    List.Pairwise byScoreDesc (generateOutfitRecommendations s pool n occ w req rng) ∧
    ∀ q : ℚ,
      (generateOutfitRecommendations s pool n occ w req rng).filter
          (fun r => decide (r.score = q)) =
        (recommendLoop (applyFilters pool occ w) req n rng (n * 10) [] [] 0).filter
          (fun r => decide (r.score = q)) := by
  refine ⟨?_, ?_, fun q => ?_⟩
  · show (List.insertionSort byScoreDesc
      (recommendLoop (applyFilters pool occ w) req n rng (n * 10) [] [] 0)).length ≤ n
    rw [List.length_insertionSort]
    exact recommendLoop_length_le (applyFilters pool occ w) req n rng (n * 10) [] [] 0
      (Nat.zero_le n)
  · exact List.sorted_insertionSort byScoreDesc
      (recommendLoop (applyFilters pool occ w) req n rng (n * 10) [] [] 0)
  · exact filter_score_insertionSort q
      (recommendLoop (applyFilters pool occ w) req n rng (n * 10) [] [] 0)

/-! ### Well-formedness of produced outfits (claim C6) -/

theorem contains_iff_mem (l : List String) (a : String) : l.contains a = true ↔ a ∈ l := by
  simp [List.contains]

theorem pickRandom_mem (l : List ClothingItem) (r : ℚ) (hl : 0 < l.length) (_h0 : 0 ≤ r)
    (h1 : r < 1) : pickRandom l r ∈ l := by
  have hmul : r * l.length < l.length := by
    calc r * l.length < 1 * l.length := by
          apply mul_lt_mul_of_pos_right h1
          exact_mod_cast hl
    _ = l.length := one_mul _
  have hfl : Int.floor (r * (l.length : ℚ)) < (l.length : ℤ) := by
    rw [Int.floor_lt]
    exact_mod_cast hmul
  have hidx : randIndex r l.length < l.length := by
    unfold randIndex
    omega
  rw [pickRandom, List.getD_eq_getElem l undefinedItem hidx]
  exact List.getElem_mem hidx

theorem addAccessory_inv (pool : List ClothingItem) (cat : String) (th : ℚ) (rng : Rng)
    (hv : ValidRng rng) (st : GenState)
    (h1 : ∀ it ∈ st.1, it.category ∈ st.2.1)
    (h2 : (st.1.map (fun i => i.category)).Nodup) :
    (∀ it ∈ (addAccessory pool cat th rng st).1,
      it.category ∈ (addAccessory pool cat th rng st).2.1) ∧
    ((addAccessory pool cat th rng st).1.map (fun i => i.category)).Nodup := by
  obtain ⟨items, used, pos⟩ := st
  simp only [addAccessory]
  split
  next hc =>
    split
    next hcond =>
      obtain ⟨hth, hnc⟩ := hcond
      have hcat : cat ∉ used := fun hmem => hnc ((contains_iff_mem used cat).2 hmem)
      have hpick : pickRandom (pool.filter (fun item => item.category == cat)) (rng (pos + 1)) ∈
          pool.filter (fun item => item.category == cat) :=
        pickRandom_mem _ _ hc (hv (pos + 1)).1 (hv (pos + 1)).2
      have hpcat : (pickRandom (pool.filter (fun item => item.category == cat))
          (rng (pos + 1))).category = cat := by
        have := (List.mem_filter.1 hpick).2
        simpa using this
      refine ⟨?_, ?_⟩
      · intro it hit
        rcases List.mem_append.1 hit with h | h
        · exact List.mem_append_left _ (h1 it h)
        · rw [List.mem_singleton] at h
          subst h
          rw [hpcat]
          exact List.mem_append_right _ (List.mem_singleton.2 rfl)
      · rw [List.map_append]
        rw [List.nodup_append]
        refine ⟨h2, by simp, ?_⟩
        intro a ha hb
        simp only [List.map_cons, List.map_nil, List.mem_singleton, hpcat] at hb
        rcases List.mem_map.1 ha with ⟨it, hit, hcatEq⟩
        subst hb
        exact hcat (hcatEq ▸ h1 it hit)
    next => exact ⟨h1, h2⟩
  next => exact ⟨h1, h2⟩

theorem addRequired_inv (pool : List ClothingItem) (rng : Rng) (hv : ValidRng rng) :
    ∀ (cats : List String) (st : GenState),
      (∀ it ∈ st.1, it.category ∈ st.2.1) →
      (st.1.map (fun i => i.category)).Nodup →
      (∀ it ∈ (addRequired pool rng cats st).1,
        it.category ∈ (addRequired pool rng cats st).2.1) ∧
      ((addRequired pool rng cats st).1.map (fun i => i.category)).Nodup := by
  intro cats
  induction cats with
  | nil => intro st h1 h2; exact ⟨h1, h2⟩
  | cons c cs ih =>
    intro st h1 h2
    obtain ⟨items, used, pos⟩ := st
    rw [addRequired]
    split
    next => exact ih _ h1 h2
    next hnc =>
      show (∀ it ∈ (if 0 < (List.filter (fun item => item.category == c) pool).length then
            addRequired pool rng cs
              (items ++ [pickRandom (List.filter (fun item => item.category == c) pool)
                (rng pos)], used ++ [c], pos + 1)
          else addRequired pool rng cs (items, used, pos)).1,
          it.category ∈ (if 0 < (List.filter (fun item => item.category == c) pool).length then
            addRequired pool rng cs
              (items ++ [pickRandom (List.filter (fun item => item.category == c) pool)
                (rng pos)], used ++ [c], pos + 1)
          else addRequired pool rng cs (items, used, pos)).2.1) ∧
        ((if 0 < (List.filter (fun item => item.category == c) pool).length then
            addRequired pool rng cs
              (items ++ [pickRandom (List.filter (fun item => item.category == c) pool)
                (rng pos)], used ++ [c], pos + 1)
          else addRequired pool rng cs (items, used, pos)).1.map
            (fun i => i.category)).Nodup
      split
      next hc =>
        have hcat : c ∉ used := fun hmem => hnc ((contains_iff_mem used c).2 hmem)
        have hpick : pickRandom (pool.filter (fun item => item.category == c)) (rng pos) ∈
            pool.filter (fun item => item.category == c) :=
          pickRandom_mem _ _ hc (hv pos).1 (hv pos).2
        have hpcat : (pickRandom (pool.filter (fun item => item.category == c))
            (rng pos)).category = c := by
          have := (List.mem_filter.1 hpick).2
          simpa using this
        apply ih
        · intro it hit
          rcases List.mem_append.1 hit with h | h
          · exact List.mem_append_left _ (h1 it h)
          · rw [List.mem_singleton] at h
            subst h
            rw [hpcat]
            exact List.mem_append_right _ (List.mem_singleton.2 rfl)
        · rw [List.map_append, List.nodup_append]
          refine ⟨h2, by simp, ?_⟩
          intro a ha hb
          simp only [List.map_cons, List.map_nil, List.mem_singleton, hpcat] at hb
          rcases List.mem_map.1 ha with ⟨it, hit, hcatEq⟩
          subst hb
          exact hcat (hcatEq ▸ h1 it hit)
      next => exact ih _ h1 h2

theorem baseOutfit_inv (pool : List ClothingItem) (rng : Rng) (hv : ValidRng rng) (pos : ℕ) :
    (∀ it ∈ (baseOutfit pool outfitTemplate rng pos).1,
      it.category ∈ (baseOutfit pool outfitTemplate rng pos).2.1) ∧
    ((baseOutfit pool outfitTemplate rng pos).1.map (fun i => i.category)).Nodup := by
  cases hfind : pool.find? (fun item => item.category == "Dress") with
  | some d =>
    rw [baseOutfit_dress pool outfitTemplate rng pos d hfind]
    have hd : d.category = "Dress" := by simpa using List.find?_some hfind
    refine ⟨?_, by simp⟩
    intro it hit
    rw [List.mem_singleton] at hit
    subst hit
    simp [hd]
  | none =>
    by_cases htop : 0 < (pool.filter (fun item =>
        (outfitTemplate.getD 0 []).contains item.category)).length
    · by_cases hbot : 0 < (pool.filter (fun item =>
          (outfitTemplate.getD 1 []).contains item.category)).length
      · simp only [baseOutfit, hfind, if_pos htop, if_pos hbot]
        have hpt := pickRandom_mem _ (rng pos) htop (hv pos).1 (hv pos).2
        have hpb := pickRandom_mem _ (rng (pos + 1)) hbot (hv (pos + 1)).1 (hv (pos + 1)).2
        have htc : (pickRandom (pool.filter (fun item =>
            (outfitTemplate.getD 0 []).contains item.category)) (rng pos)).category ∈
            outfitTemplate.getD 0 [] :=
          (contains_iff_mem _ _).1 (List.mem_filter.1 hpt).2
        have hbc : (pickRandom (pool.filter (fun item =>
            (outfitTemplate.getD 1 []).contains item.category)) (rng (pos + 1))).category ∈
            outfitTemplate.getD 1 [] :=
          (contains_iff_mem _ _).1 (List.mem_filter.1 hpb).2
        have hdisj : ∀ x ∈ outfitTemplate.getD 0 [], x ∉ outfitTemplate.getD 1 [] := by decide
        refine ⟨?_, ?_⟩
        · intro it hit
          rcases List.mem_append.1 hit with h | h <;> rw [List.mem_singleton] at h <;> subst h
          · exact List.mem_append_left _ (List.mem_singleton.2 rfl)
          · exact List.mem_append_right _ (List.mem_singleton.2 rfl)
        · simp only [List.map_append, List.map_cons, List.map_nil, List.singleton_append,
            List.nodup_cons, List.mem_singleton, List.nodup_nil, and_true, not_false_iff]
          constructor
          · intro heq
            exact hdisj _ htc (heq ▸ hbc)
          · exact List.not_mem_nil _
      · simp only [baseOutfit, hfind, if_pos htop, if_neg hbot]
        refine ⟨?_, by simp⟩
        intro it hit
        rw [List.mem_singleton] at hit
        subst hit
        simp
    · by_cases hbot : 0 < (pool.filter (fun item =>
          (outfitTemplate.getD 1 []).contains item.category)).length
      · simp only [baseOutfit, hfind, if_neg htop, if_pos hbot]
        refine ⟨?_, by simp⟩
        intro it hit
        simp only [List.nil_append, List.mem_singleton] at hit
        subst hit
        simp
      · simp only [baseOutfit, hfind, if_neg htop, if_neg hbot]
        exact ⟨fun it hit => absurd hit (List.not_mem_nil it), by simp⟩

theorem generateSingle_nodup (pool : List ClothingItem) (required : List String) (rng : Rng)
    (hv : ValidRng rng) (pos : ℕ) :
    ((generateSingleOutfitWithRequired pool outfitTemplate required rng pos).1.map
      (fun i => i.category)).Nodup := by
  have hbase := baseOutfit_inv pool rng hv pos
  have hreq := addRequired_inv pool rng hv required _ hbase.1 hbase.2
  have hsh := addAccessory_inv pool "Shoes" 0.3 rng hv _ hreq.1 hreq.2
  have hhat := addAccessory_inv pool "Hat" 0.5 rng hv _ hsh.1 hsh.2
  have hoth := addAccessory_inv pool "Other" 0.7 rng hv _ hhat.1 hhat.2
  exact hoth.2

theorem mem_addRequired (pool : List ClothingItem) (rng : Rng) (cats : List String)
    (st : GenState) (x : ClothingItem) (hx : x ∈ st.1) :
    x ∈ (addRequired pool rng cats st).1 := by
  obtain ⟨suf, hsuf⟩ := addRequired_append pool rng cats st
  rw [hsuf]
  exact List.mem_append_left _ hx

theorem mem_addAccessory (pool : List ClothingItem) (cat : String) (th : ℚ) (rng : Rng)
    (st : GenState) (x : ClothingItem) (hx : x ∈ st.1) :
    x ∈ (addAccessory pool cat th rng st).1 := by
  obtain ⟨suf, hsuf⟩ := addAccessory_append pool cat th rng st
  rw [hsuf]
  exact List.mem_append_left _ hx

theorem mem_generateSingle (pool : List ClothingItem) (template : List (List String))
    (required : List String) (rng : Rng) (pos : ℕ) (x : ClothingItem)
    (hx : x ∈ (baseOutfit pool template rng pos).1) :
    x ∈ (generateSingleOutfitWithRequired pool template required rng pos).1 := by
  simp only [generateSingleOutfitWithRequired]
  exact mem_addAccessory _ _ _ _ _ _
    (mem_addAccessory _ _ _ _ _ _
      (mem_addAccessory _ _ _ _ _ _ (mem_addRequired _ _ _ _ _ hx)))

theorem baseOutfit_complete_dressless (pool : List ClothingItem) (rng : Rng) (pos : ℕ)
    (hv : ValidRng rng)
    (hfind : pool.find? (fun item => item.category == "Dress") = none)
    (htop : 0 < (pool.filter (fun item =>
      (outfitTemplate.getD 0 []).contains item.category)).length)
    (hbot : 0 < (pool.filter (fun item =>
      (outfitTemplate.getD 1 []).contains item.category)).length) :
    (∃ it ∈ (baseOutfit pool outfitTemplate rng pos).1,
      it.category ∈ outfitTemplate.getD 0 []) ∧
    (∃ it ∈ (baseOutfit pool outfitTemplate rng pos).1,
      it.category ∈ outfitTemplate.getD 1 []) := by
  simp only [baseOutfit, hfind, if_pos htop, if_pos hbot]
  have hpt := pickRandom_mem _ (rng pos) htop (hv pos).1 (hv pos).2
  have hpb := pickRandom_mem _ (rng (pos + 1)) hbot (hv (pos + 1)).1 (hv (pos + 1)).2
  refine ⟨⟨pickRandom (pool.filter (fun item =>
      (outfitTemplate.getD 0 []).contains item.category)) (rng pos), by simp, ?_⟩,
    ⟨pickRandom (pool.filter (fun item =>
      (outfitTemplate.getD 1 []).contains item.category)) (rng (pos + 1)), by simp, ?_⟩⟩
  · exact (contains_iff_mem _ _).1 (List.mem_filter.1 hpt).2
  · exact (contains_iff_mem _ _).1 (List.mem_filter.1 hpb).2

theorem generateSingle_complete (pool : List ClothingItem) (required : List String) (rng : Rng)
    (pos : ℕ) (hv : ValidRng rng)
    (hpool : (∃ it ∈ pool, it.category = "Dress") ∨
      ((∃ it ∈ pool, it.category ∈ outfitTemplate.getD 0 []) ∧
       (∃ it ∈ pool, it.category ∈ outfitTemplate.getD 1 []))) :
    (∃ it ∈ (generateSingleOutfitWithRequired pool outfitTemplate required rng pos).1,
      it.category = "Dress") ∨
    ((∃ it ∈ (generateSingleOutfitWithRequired pool outfitTemplate required rng pos).1,
      it.category ∈ outfitTemplate.getD 0 []) ∧
     (∃ it ∈ (generateSingleOutfitWithRequired pool outfitTemplate required rng pos).1,
      it.category ∈ outfitTemplate.getD 1 [])) := by
  cases hfind : pool.find? (fun item => item.category == "Dress") with
  | some d =>
    left
    have hd : d.category = "Dress" := by simpa using List.find?_some hfind
    refine ⟨d, ?_, hd⟩
    apply mem_generateSingle
    rw [baseOutfit_dress pool outfitTemplate rng pos d hfind]
    simp
  | none =>
    right
    have hnodress : ∀ it ∈ pool, ¬ it.category = "Dress" := by
      intro it hit
      have := List.find?_eq_none.1 hfind it hit
      simpa using this
    rcases hpool with ⟨it, hit, hcat⟩ | ⟨⟨t, ht, htc⟩, ⟨b, hb, hbc⟩⟩
    · exact absurd hcat (hnodress it hit)
    · have htops : 0 < (pool.filter (fun item =>
          (outfitTemplate.getD 0 []).contains item.category)).length :=
        List.length_pos_of_mem (List.mem_filter.2 ⟨ht, (contains_iff_mem _ _).2 htc⟩)
      have hbots : 0 < (pool.filter (fun item =>
          (outfitTemplate.getD 1 []).contains item.category)).length :=
        List.length_pos_of_mem (List.mem_filter.2 ⟨hb, (contains_iff_mem _ _).2 hbc⟩)
      obtain ⟨⟨x, hxmem, hxcat⟩, ⟨y, hymem, hycat⟩⟩ :=
        baseOutfit_complete_dressless pool rng pos hv hfind htops hbots
      exact ⟨⟨x, mem_generateSingle _ _ _ _ _ _ hxmem, hxcat⟩,
        ⟨y, mem_generateSingle _ _ _ _ _ _ hymem, hycat⟩⟩

/-- C6: every produced recommendation (for a valid random stream) has a
non-empty, duplicate-free item list, and whenever the filtered pool is not
degenerate (it still holds a Dress, or both a top-layer and a bottom-layer
item) the outfit holds a Dress or a top-layer plus a bottom-layer item. -/
theorem recommendations_wellformed (s : ServiceState) (pool : List ClothingItem) (n : ℕ)
    (occ w : Option String) (req : List String) (rng : Rng) (hv : ValidRng rng) :
    ∀ r ∈ generateOutfitRecommendations s pool n occ w req rng,
      r.items ≠ [] ∧ r.items.Nodup ∧
      (((∃ it ∈ applyFilters pool occ w, it.category = "Dress") ∨
        ((∃ it ∈ applyFilters pool occ w, it.category ∈ outfitTemplate.getD 0 []) ∧
         (∃ it ∈ applyFilters pool occ w, it.category ∈ outfitTemplate.getD 1 []))) →
       ((∃ it ∈ r.items, it.category = "Dress") ∨
        ((∃ it ∈ r.items, it.category ∈ outfitTemplate.getD 0 []) ∧
         (∃ it ∈ r.items, it.category ∈ outfitTemplate.getD 1 [])))) := by
  intro r hr
  have hr2 : r ∈ recommendLoop (applyFilters pool occ w) req n rng (n * 10) [] [] 0 :=
    (List.mem_insertionSort byScoreDesc).1 hr
  rcases recommendLoop_mem (applyFilters pool occ w) req n rng (n * 10) [] [] 0 r hr2 with
    h | ⟨pos1, hlen, hrEq⟩
  · exact absurd h (List.not_mem_nil r)
  · subst hrEq
    refine ⟨?_, ?_, ?_⟩
    · have : 0 < (generateSingleOutfitWithRequired (applyFilters pool occ w) outfitTemplate
          req rng pos1).1.length := by omega
      exact List.ne_nil_of_length_pos this
    · exact List.Nodup.of_map _ (generateSingle_nodup (applyFilters pool occ w) req rng hv pos1)
    · intro hpool
      exact generateSingle_complete (applyFilters pool occ w) req rng pos1 hv hpool

/-- Witness for C6 at the two-item wardrobe under the all-zero stream. -/
theorem recommendations_wellformed_witness :
    ValidRng rng0 ∧
    ∀ r ∈ generateOutfitRecommendations state0 [itemA, itemB] 3 none none [] rng0,
      r.items ≠ [] ∧ r.items.Nodup ∧
      (((∃ it ∈ applyFilters [itemA, itemB] none none, it.category = "Dress") ∨
        ((∃ it ∈ applyFilters [itemA, itemB] none none,
            it.category ∈ outfitTemplate.getD 0 []) ∧
         (∃ it ∈ applyFilters [itemA, itemB] none none,
            it.category ∈ outfitTemplate.getD 1 []))) →
       ((∃ it ∈ r.items, it.category = "Dress") ∨
        ((∃ it ∈ r.items, it.category ∈ outfitTemplate.getD 0 []) ∧
         (∃ it ∈ r.items, it.category ∈ outfitTemplate.getD 1 [])))) :=
  ⟨validRng_rng0,
    recommendations_wellformed state0 [itemA, itemB] 3 none none [] rng0 validRng_rng0⟩
